import Mathlib

/-!
# PropSafe-AI: formal model of the ETL quality classifier and ML scoring core

Shallow embedding of the analytical core of the repository:

* `src/etl/clean_and_transform.py` — `InmobiliarioETL`: categorical cleaning
  (`validar_y_tipar`), composite transaction keys (`crear_composite_key`),
  the contextual quality classifier (`clasificar_calidad`) and the
  business-pattern anomaly detector (`detectar_anomalias_negocio`);
* `src/ml/apply_models.py` — `score_batch`, the primary ensemble scorer;
* `src/ml/train_propsafe.py` — `PropSafeAnomalyDetector.predict` and
  `_normalize_scores`;
* `src/ml/feature_engineering_propsafe.py` — `PropSafeFeatureEngineer.create_features`.

Pandas/NumPy conventions that the embedding reproduces explicitly:

* a missing cell in an object column is either Python `None` or a float `NaN`;
  `Series.astype(str)` renders them as the literal strings `"None"` / `"nan"`;
* comparisons against a missing value are `False`; a nullable-boolean mask entry
  that is `NA` is treated as `False` by `.loc` indexing;
* `groupby` drops groups whose key contains a missing value;
* floating-point numbers are modeled as exact rationals; `NaN` is modeled as
  `none` in `Option ℚ` and `0/0` produces it.
-/

namespace PropSafe

/-! ## Python / pandas string primitives -/

/-- `str.upper()` on a Python string (character-wise uppercasing). -/
def pyUpper (s : String) : String := ⟨s.data.map Char.toUpper⟩

/-- Drop whitespace from both ends of a character list (Python `str.strip()`). -/
def stripChars (l : List Char) : List Char :=
  ((l.dropWhile Char.isWhitespace).reverse.dropWhile Char.isWhitespace).reverse

/-- `str.strip()` on a Python string. -/
def pyStrip (s : String) : String := ⟨stripChars s.data⟩

/-- Does `l` start with `p`? -/
def startsWithChars : List Char → List Char → Bool
  | _, [] => true
  | [], _ :: _ => false
  | c :: cs, p :: ps => c == p && startsWithChars cs ps

/-- Does `l` contain `p` as a contiguous substring? -/
def hasSubChars : List Char → List Char → Bool
  | [], p => p.isEmpty
  | c :: cs, p => startsWithChars (c :: cs) p || hasSubChars cs p

/-- Substring test on strings (used to embed `Series.str.contains` with a
literal-alternation pattern). -/
def strHasSub (s pat : String) : Bool := hasSubChars s.data pat.data

/-- A raw cell of an object-dtype pandas column: Python `None`, float `NaN`,
or an actual string. -/
inductive RawCell where
  | null
  | nan
  | str (s : String)
deriving DecidableEq

/-- `Series.astype(str)` on one cell: `None ↦ "None"`, `NaN ↦ "nan"`,
a string is unchanged. -/
def pdAstypeStr : RawCell → String
  | .null => "None"
  | .nan => "nan"
  | .str s => s

/-! ## Option-valued numeric comparisons (pandas semantics)

A comparison whose operand is missing (`NaN` in a float column, `NA` in a
nullable integer column) yields `False` once the resulting mask is used by
`.loc`, so all four comparators return `false` on `none`. -/

def optGtQ (a : Option ℚ) (c : ℚ) : Bool := match a with
  | some v => decide (v > c)
  | none => false

def optLtQ (a : Option ℚ) (c : ℚ) : Bool := match a with
  | some v => decide (v < c)
  | none => false

def optGeQ (a : Option ℚ) (c : ℚ) : Bool := match a with
  | some v => decide (v ≥ c)
  | none => false

def optLeQ (a : Option ℚ) (c : ℚ) : Bool := match a with
  | some v => decide (v ≤ c)
  | none => false

/-! ## `validar_y_tipar`: cleaning of categorical columns

`src/etl/clean_and_transform.py`, lines 125-132:
```
df[col] = df[col].astype(str).str.strip().str.upper()
df[col] = df[col].replace('NONE', np.nan)
```
`Series.replace` with scalar arguments replaces whole-cell matches only.
-/

/-- One cell of a categorical column (`DEPARTAMENTO`, `MUNICIPIO`,
`TIPO_PREDIO_ZONA`, `CATEGORIA_RURALIDAD`, `ESTADO_FOLIO`) after
`validar_y_tipar`: `astype(str)`, strip, upper, then whole-cell
`replace('NONE', np.nan)`. `none` is the missing sentinel. -/
def limpiarCategorica (r : RawCell) : Option String :=
  let cleaned := pyUpper (pyStrip (pdAstypeStr r))
  if cleaned == "NONE" then none else some cleaned

/-! ## `clasificar_calidad`: the contextual quality classifier

`src/etl/clean_and_transform.py`, lines 140-229. All rules are row-wise, so
the batch-level mask assignments are embedded as one state-threading function
per record. Column values referenced by the masks (`VALOR`, `YEAR_RADICA`,
...) never change during the pass; only `calidad_datos` / `tipo_error` do.
-/

/-- A normalized record as `clasificar_calidad` sees it (after
`validar_y_tipar`). Field ↔ source column: `dinamica` ↔
`Dinámica_Inmobiliaria` (nullable 0/1), `yearRadica` ↔ `YEAR_RADICA`
(nullable Int64), `valor` ↔ `VALOR` (float, `none` = NaN), `departamento` /
`municipio` / `tipoPredioZona` ↔ the cleaned categorical columns,
`nombreNatujur` ↔ `NOMBRE_NATUJUR`. -/
structure RegistroNorm where
  dinamica : Option Nat
  yearRadica : Option Int
  valor : Option ℚ
  departamento : Option String
  municipio : Option String
  nombreNatujur : Option String
  tipoPredioZona : Option String
deriving DecidableEq

/-- Verdict-and-reason state: `calidad_datos` (initialized `"OK"`) and
`tipo_error` (initialized `None`). -/
structure QState where
  calidad : String
  tipoErr : Option String
deriving DecidableEq

/-- One ERROR-producing mask assignment:
`df.loc[mask, 'calidad_datos'] = 'ERROR'; df.loc[mask, 'tipo_error'] = e`. -/
def applyErr (c : Bool) (e : String) (st : QState) : QState :=
  if c then ⟨"ERROR", some e⟩ else st

/-- REGLA 2: `(YEAR_RADICA < 2000) | (YEAR_RADICA > 2025)` on a nullable
Int64 column. On a missing year both comparisons are `NA`, `NA | NA = NA`,
and `.loc` treats `NA` as `False` — so a missing year does NOT match. -/
def yearInvalido : Option Int → Bool
  | some y => decide (y < 2000) || decide (y > 2025)
  | none => false

/-- REGLA 5 helper:
`df['NOMBRE_NATUJUR'].str.contains('COMPRAVENTA|HIPOTECA|VENTA|MUTUO',
case=False, na=False)`. -/
def actosConValor (nombre : Option String) : Bool :=
  match nombre with
  | none => false
  | some s =>
      let u := pyUpper s
      strHasSub u "COMPRAVENTA" || strHasSub u "HIPOTECA" ||
        strHasSub u "VENTA" || strHasSub u "MUTUO"

/-- REGLA 6 helper: `df['TIPO_PREDIO_ZONA'].isin(valores_validos_tipo)` —
a missing cell is not `isin` any list. -/
def tipoPredioEsValido (t : Option String) : Bool :=
  match t with
  | none => false
  | some s => s == "URBANO" || s == "RURAL" || s == "SIN INFORMACION" || s == "MIXTO"

/-- Result of `clasificar_calidad` for one record: the four columns the pass
adds (`calidad_datos`, `tipo_error`, `es_mercado_valido`, `valor_valido`). -/
structure QResult where
  calidad : String
  tipoErr : Option String
  esMercadoValido : Bool
  valorValido : Bool
deriving DecidableEq

/-- `InmobiliarioETL.clasificar_calidad`, embedded rule for rule in source
order (lines 144-219 of `src/etl/clean_and_transform.py`). -/
def clasificarCalidad (r : RegistroNorm) : QResult :=
  -- df['calidad_datos'] = 'OK'; df['tipo_error'] = None
  let st0 : QState := ⟨"OK", none⟩
  -- REGLA 1: Dinámica_Inmobiliaria missing
  let st1 := applyErr r.dinamica.isNone "DINAMICA_INVALIDA" st0
  -- REGLA 2: YEAR_RADICA outside 2000-2025 (NA mask entries act as False)
  let st2 := applyErr (yearInvalido r.yearRadica) "YEAR_INVALIDO" st1
  -- REGLA 3: DEPARTAMENTO / MUNICIPIO required
  let st3 := applyErr (r.departamento.isNone || r.municipio.isNone) "GEOGRAFIA_INVALIDA" st2
  -- REGLA 4: es_mercado_valido = (Dinámica_Inmobiliaria == 1)
  let esMercado := r.dinamica == some 1
  -- REGLA 5 (ERROR): market act with VALOR missing or == 0
  let sinValor := esMercado && (r.valor.isNone || r.valor == some 0)
  let st4 := applyErr sinValor "MERCADO_SIN_VALOR" st3
  -- ADVERTENCIA: value-bearing act with 0 < VALOR < 1_000_000, still OK
  let irrisorio := actosConValor r.nombreNatujur && optGtQ r.valor 0 &&
    optLtQ r.valor 1000000 && (st4.calidad == "OK")
  let st5 := if irrisorio then ⟨"ADVERTENCIA", some "VALOR_IRRISIORIO"⟩ else st4
  -- ERROR: VALOR > 10_000_000_000
  let st6 := applyErr (optGtQ r.valor 10000000000) "VALOR_EXTREMO_DIGITACION" st5
  -- valor_valido: 1M ≤ VALOR ≤ 10B and market-relevant (no verdict condition)
  let valorValido := optGeQ r.valor 1000000 && optLeQ r.valor 10000000000 && esMercado
  -- REGLA 6: TIPO_PREDIO_ZONA outside the accepted closed set (two separate
  -- mask assignments: one guarded by calidad == 'OK', one by tipo_error is NA)
  let tipoInvalido := !(tipoPredioEsValido r.tipoPredioZona)
  let st7 := if tipoInvalido && (st6.calidad == "OK") then { st6 with calidad := "ADVERTENCIA" } else st6
  let st8 := if tipoInvalido && st7.tipoErr.isNone then { st7 with tipoErr := some "TIPO_PREDIO_INVALIDO" } else st7
  ⟨st8.calidad, st8.tipoErr, esMercado, valorValido⟩

/-- `crear_datasets` (lines 314-319): membership mask of the ML_TRAINING
partition — `(es_mercado_valido == True) & (valor_valido == True) &
(calidad_datos == 'OK')`. -/
def maskMlTraining (q : QResult) : Bool :=
  q.esMercadoValido && q.valorValido && (q.calidad == "OK")

/-! ## `detectar_anomalias_negocio`: excessive-activity detection

`src/etl/clean_and_transform.py`, lines 240-251:
```
anotaciones_count = df.groupby(['MATRICULA', 'YEAR_RADICA']).size()
anotaciones_dict = anotaciones_count.to_dict()
keys = list(zip(df['MATRICULA'], df['YEAR_RADICA']))
df['anotaciones_por_anio'] = [anotaciones_dict.get(k, 0) for k in keys]
df['flag_actividad_excesiva'] = df['anotaciones_por_anio'] > 150
```
`groupby` drops groups whose key has a missing component, so a record with a
missing `MATRICULA` or `YEAR_RADICA` falls to the `.get` default `0`.
-/

/-- The two grouping columns of the activity detector. -/
structure RegistroAct where
  matricula : Option String
  yearRadica : Option Int
deriving DecidableEq

/-- Size of the `(MATRICULA, YEAR_RADICA)` group for a present key `(m, y)`:
the number of batch records carrying exactly that key. -/
def conteoAnot (batch : List RegistroAct) (m : String) (y : Int) : Nat :=
  (batch.filter (fun r => r.matricula == some m && r.yearRadica == some y)).length

/-- `anotaciones_por_anio` for one record: its group's size, or the
`dict.get` default `0` when either key component is missing. -/
def anotacionesPorAnio (batch : List RegistroAct) (r : RegistroAct) : Nat :=
  match r.matricula, r.yearRadica with
  | some m, some y => conteoAnot batch m y
  | _, _ => 0

/-- `flag_actividad_excesiva = anotaciones_por_anio > 150`. -/
def flagActividadExcesiva (batch : List RegistroAct) (r : RegistroAct) : Bool :=
  anotacionesPorAnio batch r > 150

/-! ## `crear_composite_key`

`src/etl/clean_and_transform.py`, lines 76-90. Runs on the raw batch (before
`validar_y_tipar`). Each component is `astype(str)` followed by a `fillna`
that is dead code (after `astype(str)` no cell is NA), then concatenated
with `'_'`. The only surfaced statistic is
`df['transaction_id'].nunique()` in a log line.
-/

/-- Raw identifying columns of one record. -/
structure RegistroCrudo where
  divipola : RawCell
  matricula : RawCell
  numAnotacion : RawCell
  codNatujur : RawCell
  yearRadica : RawCell
deriving DecidableEq

/-- `transaction_id = DIVIPOLA + '_' + MATRICULA + '_' + NUM_ANOTACION +
'_' + COD_NATUJUR + '_' + YEAR_RADICA` (each component `astype(str)`;
the `fillna('UNK')` / `fillna('0')` calls are no-ops after `astype(str)`). -/
def transactionId (r : RegistroCrudo) : String :=
  pdAstypeStr r.divipola ++ "_" ++ pdAstypeStr r.matricula ++ "_" ++
    pdAstypeStr r.numAnotacion ++ "_" ++ pdAstypeStr r.codNatujur ++ "_" ++
    pdAstypeStr r.yearRadica

/-- `InmobiliarioETL.crear_composite_key`: every record of the batch gets its
`transaction_id` column (no record is dropped or deduplicated), and the
reported statistic is the number of distinct keys (`nunique`). -/
def crearCompositeKey (batch : List RegistroCrudo) : List (RegistroCrudo × String) × Nat :=
  let keyed := batch.map (fun r => (r, transactionId r))
  (keyed, (keyed.map Prod.snd).dedup.length)

/-! ## Ensemble scoring

Floats are modeled as exact rationals; `NaN` is `none` of `Option ℚ`. In
`score_batch` the only division is `(s - min) / (max - min)`, whose
denominator vanishes exactly when every score equals `min` — then the
numerator is `0` as well, and IEEE `0/0` is `NaN`; `fdivF` returns `none`
for a zero denominator accordingly. `NaN` propagates through `+`, `-`, `*`.
-/

/-- A float value: `none` is `NaN`. -/
abbrev Flt := Option ℚ

def faddF : Flt → Flt → Flt
  | some a, some b => some (a + b)
  | _, _ => none

def fsubF : Flt → Flt → Flt
  | some a, some b => some (a - b)
  | _, _ => none

def fmulF : ℚ → Flt → Flt
  | c, some a => some (c * a)
  | _, none => none

def fdivF : Flt → Flt → Flt
  | some a, some b => if b = 0 then none else some (a / b)
  | _, _ => none

/-- `np.min` of a raw-score vector (callers guard non-emptiness; an empty
batch is never scored — `apply_models` breaks out of the loop on
`len(df) == 0`). -/
def listMin : List ℚ → ℚ
  | [] => 0
  | x :: xs => xs.foldl min x

/-- `np.max` of a raw-score vector. -/
def listMax : List ℚ → ℚ
  | [] => 0
  | x :: xs => xs.foldl max x

/-- `(scores - scores.min()) / (scores.max() - scores.min())` — the
min-max normalization of `score_batch` (`src/ml/apply_models.py`,
lines 67-68), with no guard on a degenerate (all-equal) vector. -/
def minmaxNorm (scores : List ℚ) : List Flt :=
  let mn := listMin scores
  let mx := listMax scores
  scores.map (fun s => fdivF (some (s - mn)) (some (mx - mn)))

/-- `1 - norm` (lines 71-72): sklearn `score_samples` is larger for normal
points, so the normalized score is inverted to make `1.0` most anomalous. -/
def invertScores (l : List Flt) : List Flt := l.map (fun x => fsubF (some 1) x)

/-- `score_batch` (`src/ml/apply_models.py`, lines 56-80), score part: takes
the two models' raw `score_samples` outputs and returns the ensemble scores
`0.6 * if_norm + 0.4 * lof_norm`. -/
def scoreBatch (ifScores lofScores : List ℚ) : List Flt :=
  let ifNorm := invertScores (minmaxNorm ifScores)
  let lofNorm := invertScores (minmaxNorm lofScores)
  List.zipWith (fun a b => faddF (fmulF (6/10) a) (fmulF (4/10) b)) ifNorm lofNorm

/-! ## `PropSafeAnomalyDetector` scoring (`src/ml/train_propsafe.py`) -/

/-- Floor of a rational, used for NumPy's linear-interpolation percentile
index. -/
def ratFloor (x : ℚ) : Int := ⌊x⌋

/-- Insertion into an ascending-sorted list. -/
def insertAsc (x : ℚ) : List ℚ → List ℚ
  | [] => [x]
  | y :: ys => if x ≤ y then x :: y :: ys else y :: insertAsc x ys

/-- Ascending insertion sort. -/
def sortAsc (l : List ℚ) : List ℚ := l.foldr insertAsc []

/-- `np.percentile(scores, q)` with the default linear interpolation:
position `q/100 * (n-1)` into the sorted vector, linearly interpolated
between the two neighboring order statistics. -/
def npPercentile (l : List ℚ) (q : ℚ) : ℚ :=
  let s := sortAsc l
  let pos : ℚ := q / 100 * ((l.length : ℚ) - 1)
  let i := ratFloor pos
  let lo := s.getD i.toNat 0
  let hi := s.getD (i.toNat + 1) lo
  lo + (pos - (i : ℚ)) * (hi - lo)

/-- `np.clip(s, lo, hi)` on one entry. -/
def npClip (lo hi s : ℚ) : ℚ := min (max s lo) hi

/-- `PropSafeAnomalyDetector._normalize_scores` (lines 164-179): clip to the
5th/95th percentiles, then min-max normalize, with the degenerate case
guarded by `np.zeros_like(scores)`. -/
def normalizeScores (scores : List ℚ) : List ℚ :=
  let p5 := npPercentile scores 5
  let p95 := npPercentile scores 95
  let clipped := scores.map (npClip p5 p95)
  let mn := listMin clipped
  let mx := listMax clipped
  if 0 < mx - mn then clipped.map (fun s => (s - mn) / (mx - mn))
  else scores.map (fun _ => 0)

/-- `PropSafeAnomalyDetector.predict` (lines 136-150), score part. Inputs are
the two models' `decision_function` outputs (larger = more normal). The LOF
scores are negated (`lof_scores = -self.lof.decision_function(X)`); the
isolation-forest scores are NOT inverted anywhere. Ensemble:
`0.6 * if_scores_norm + 0.4 * lof_scores_norm`. -/
def predictScores (ifDecision lofDecision : List ℚ) : List ℚ :=
  let ifNorm := normalizeScores ifDecision
  let lofNorm := normalizeScores (lofDecision.map (fun x => -x))
  List.zipWith (fun a b => 6/10 * a + 4/10 * b) ifNorm lofNorm

/-! ## `PropSafeFeatureEngineer.create_features`

`src/ml/feature_engineering_propsafe.py`, lines 30-171, per record. Column
presence is frame-level, encoded here by the outer `Option` of each field
(`none` = the column is absent from the source schema; `some none` = the
column exists but the cell is missing).

Access semantics embedded:
* `df['X']` raises `KeyError` when the column is absent
  (`transaction_id`, `VALOR`);
* `df.get('X', default).fillna(...)` raises `AttributeError` when the column
  is absent, because `df.get` then returns the scalar default (an `int`),
  which has no `.fillna` (the flag, `TIENE_VALOR` and count columns);
* `if 'X' in df.columns` guards the genuinely optional columns.

A parsed `FECHA_RADICA_TEXTO` cell is modeled as its pandas datetime
accessors (`pd.to_datetime(..., errors='coerce')` yields `NaT` = inner
`none`); `quarter` is derived from the month. `np.log1p` is a parameter of
the embedding (a transcendental function external to the repository).
Feature values are carried as `Flt` so that the final `features.fillna(0)`
sanitization is explicit.
-/

/-- Datetime accessors of one parsed `FECHA_RADICA_TEXTO` cell. -/
structure FechaDt where
  year : Int
  month : Int
  dayOfWeek : Int
  daysSince2015 : Int
deriving DecidableEq

/-- One record of the frame passed to `create_features`. -/
structure MlRow where
  transactionId : Option String
  fechaRadicaTexto : Option (Option FechaDt)
  yearRadica : Option (Option Int)
  valor : Option (Option ℚ)
  tipoPredioZona : Option (Option String)
  categoriaRuralidad : Option (Option ℚ)
  anotacionesPorAnio : Option (Option ℚ)
  codNatujur : Option (Option ℚ)
  flagActividadExcesiva : Option (Option Bool)
  flagGeoDiscrepancia : Option (Option Bool)
  totalFlagsAnomalia : Option (Option ℚ)
  tieneValor : Option (Option ℚ)
  countA : Option (Option Int)
  countDe : Option (Option Int)
  prediosNuevos : Option (Option Int)
deriving DecidableEq

/-- `.astype(int)` of a boolean. -/
def boolToQ (b : Bool) : ℚ := if b then 1 else 0

/-- `PropSafeFeatureEngineer.create_features` for one record: either the
`(transaction_id, named feature values)` row, or the Python exception the
call raises. Fallible accesses happen in source order (nested matches mirror
the sequence of raising statements). -/
def createFeatures (log1p : ℚ → ℚ) (r : MlRow) : Except String (String × List (String × ℚ)) :=
  -- features['transaction_id'] = df['transaction_id']
  match r.transactionId with
  | none => Except.error "KeyError: transaction_id"
  | some tid =>
  -- ===== 1. temporal: guarded by column presence; absent from the output
  -- frame when neither date nor year column exists =====
  let temporal : List (String × Flt) :=
    match r.fechaRadicaTexto, r.yearRadica with
    | some cell, _ =>
        [("year", cell.map (fun d => (d.year : ℚ))),
         ("month", cell.map (fun d => (d.month : ℚ))),
         ("quarter", cell.map (fun d => (((d.month + 2) / 3 : Int) : ℚ))),
         ("day_of_week", cell.map (fun d => (d.dayOfWeek : ℚ))),
         -- (day_of_week >= 5).astype(int): a NaT row compares False, hence 0
         ("is_weekend", some (boolToQ (match cell with
            | some d => decide (d.dayOfWeek ≥ 5)
            | none => false))),
         ("days_since_2015", cell.map (fun d => (d.daysSince2015 : ℚ)))]
    | none, some ycell =>
        [("year", ycell.map (fun y => (y : ℚ))),
         ("month", some 6), ("quarter", some 2), ("day_of_week", some 3),
         ("is_weekend", some 0),
         ("days_since_2015", ycell.map (fun y => (((y - 2015) * 365 : Int) : ℚ)))]
    | none, none => []
  -- ===== 2. valor: unguarded df['VALOR'] =====
  match r.valor with
  | none => Except.error "KeyError: VALOR"
  | some valorCell =>
  let valorActo : ℚ := valorCell.getD 0
  let valorFeats : List (String × Flt) :=
    [("valor_acto", some valorActo),
     ("log_valor", some (log1p valorActo)),
     ("valor_millones", some (valorActo / 1000000)),
     ("valor_miles_millones", some (valorActo / 1000000000)),
     ("valor_bajo", some (boolToQ (decide (valorActo < 50000000)))),
     ("valor_medio", some (boolToQ (decide (50000000 ≤ valorActo) && decide (valorActo < 500000000)))),
     ("valor_alto", some (boolToQ (decide (500000000 ≤ valorActo))))]
  -- ===== 3. areas: not available in these data, constant 0 =====
  let areaFeats : List (String × Flt) :=
    [("area_terreno", some 0), ("area_construida", some 0), ("area_total", some 0),
     ("log_area_terreno", some 0), ("log_area_construida", some 0),
     ("ratio_construccion", some 0), ("valor_m2_terreno", some 0),
     ("valor_m2_construida", some 0)]
  -- ===== 4. actividad: guarded; defaults 1 / 0 / 0 =====
  let actFeats : List (String × Flt) :=
    match r.anotacionesPorAnio with
    | some cell =>
        let anot := cell.getD 1
        [("anotaciones_por_anio", some anot),
         ("log_anotaciones", some (log1p anot)),
         ("actividad_alta", some (boolToQ (decide (anot > 10))))]
    | none =>
        [("anotaciones_por_anio", some 1), ("log_anotaciones", some 0),
         ("actividad_alta", some 0)]
  -- ===== 5. geograficas: guarded; note sin_zona uses na=True =====
  let geoFeats : List (String × Flt) :=
    match r.tipoPredioZona, r.categoriaRuralidad with
    | some cell, _ =>
        [("es_urbano", some (boolToQ (match cell with
            | some s => strHasSub s "URBANO"
            | none => false))),
         ("es_rural", some (boolToQ (match cell with
            | some s => strHasSub s "RURAL"
            | none => false))),
         ("sin_zona", some (boolToQ (!(match cell with
            | some s => strHasSub s "URBANO" || strHasSub s "RURAL"
            | none => true))))]
    | none, some cat =>
        [("es_urbano", some (boolToQ (cat == some 1))),
         ("es_rural", some (boolToQ (cat == some 2 || cat == some 3))),
         ("sin_zona", some (boolToQ cat.isNone))]
    | none, none =>
        [("es_urbano", some 0), ("es_rural", some 0), ("sin_zona", some 1)]
  -- ===== 6. tipo de predio: guarded =====
  let predioFeats : List (String × Flt) :=
    match r.tipoPredioZona with
    | some cell =>
        [("predio_nph", some (boolToQ (match cell with
            | some s => strHasSub s "NPH"
            | none => false))),
         ("predio_matriz", some (boolToQ (match cell with
            | some s => strHasSub s "MATRIZ"
            | none => false))),
         ("predio_matriz_nph", some (boolToQ (match cell with
            | some s => strHasSub s "MATRIZ NPH"
            | none => false)))]
    | none =>
        [("predio_nph", some 0), ("predio_matriz", some 0), ("predio_matriz_nph", some 0)]
  -- ===== 7. flags: df.get(col, scalar).fillna(...) =====
  match r.flagActividadExcesiva with
  | none => Except.error "AttributeError: fillna (flag_actividad_excesiva)"
  | some flagActCell =>
  let flagAct := boolToQ (flagActCell.getD false)
  match r.flagGeoDiscrepancia with
  | none => Except.error "AttributeError: fillna (flag_geo_discrepancia)"
  | some flagGeoCell =>
  let flagGeo := boolToQ (flagGeoCell.getD false)
  match r.totalFlagsAnomalia with
  | none => Except.error "AttributeError: fillna (total_flags_anomalia)"
  | some totalFlagsCell =>
  let totalFlags := totalFlagsCell.getD 0
  match r.tieneValor with
  | none => Except.error "AttributeError: fillna (TIENE_VALOR)"
  | some tieneValCell =>
  let tieneVal := tieneValCell.getD 1
  -- ===== 8. código de naturaleza: guarded; cell modeled as the result of
  -- pd.to_numeric(df['COD_NATUJUR'], errors='coerce') =====
  let codFeats : List (String × Flt) :=
    match r.codNatujur with
    | some cell =>
        let num := cell.getD 0
        [("cod_naturaleza_num", some num),
         ("cod_naturaleza_grupo", some ((ratFloor (num / 100) : Int) : ℚ))]
    | none =>
        [("cod_naturaleza_num", some 0), ("cod_naturaleza_grupo", some 0)]
  -- ===== 9. counts: df.get(col, 0).fillna(0).astype(int) =====
  match r.countA with
  | none => Except.error "AttributeError: fillna (COUNT_A)"
  | some countACell =>
  let countA : ℚ := ((countACell.getD 0 : Int) : ℚ)
  match r.countDe with
  | none => Except.error "AttributeError: fillna (COUNT_DE)"
  | some countDeCell =>
  let countDe : ℚ := ((countDeCell.getD 0 : Int) : ℚ)
  match r.prediosNuevos with
  | none => Except.error "AttributeError: fillna (PREDIOS_NUEVOS)"
  | some predNuevosCell =>
  let predNuevos : ℚ := ((predNuevosCell.getD 0 : Int) : ℚ)
  let tailFeats : List (String × Flt) :=
    [("flag_actividad_excesiva", some flagAct),
     ("flag_geo_discrepancia", some flagGeo),
     ("total_flags_anomalia", some totalFlags),
     ("tiene_valor", some tieneVal)] ++ codFeats ++
    [("count_a", some countA), ("count_de", some countDe),
     ("predios_nuevos", some predNuevos)]
  -- ===== final: features = features.fillna(0) =====
  let allFeats := temporal ++ valorFeats ++ areaFeats ++ actFeats ++
    geoFeats ++ predioFeats ++ tailFeats
  Except.ok (tid, allFeats.map (fun p => (p.1, p.2.getD 0)))

/-! ## Concrete records used by witnesses and counterexamples -/

/-- Market record (Dinámica = 1) with `VALOR = 0` and every other field
valid. -/
def regMercadoCero : RegistroNorm :=
  ⟨some 1, some 2015, some 0, some "CUNDINAMARCA", some "BOGOTA",
   some "COMPRAVENTA", some "URBANO"⟩

/-- Record with a missing filing year and every other field valid: a
market sale of 5,000,000 in a known municipality. -/
def regSinAnio : RegistroNorm :=
  ⟨some 1, none, some 5000000, some "ANTIOQUIA", some "MEDELLIN",
   some "COMPRAVENTA", some "URBANO"⟩

/-- Record with a missing market indicator. -/
def regSinDinamica : RegistroNorm :=
  ⟨none, some 2020, some 0, some "HUILA", some "NEIVA",
   some "SUCESION", some "RURAL"⟩

/-- Non-market record with an implausibly large value (20 billion). -/
def regValorExtremo : RegistroNorm :=
  ⟨some 0, some 2020, some 20000000000, some "META", some "VILLAVICENCIO",
   some "SUCESION", some "URBANO"⟩

/-- Market record with an in-range value but a filing year outside the
2000-2025 window (verdict ERROR, YEAR_INVALIDO). -/
def regErrorAnio : RegistroNorm :=
  ⟨some 1, some 1990, some 5000000, some "ANTIOQUIA", some "MEDELLIN",
   some "COMPRAVENTA", some "URBANO"⟩

/-- Clean market record with an in-range value (verdict OK). -/
def regMercadoOk : RegistroNorm :=
  ⟨some 1, some 2018, some 5000000, some "VALLE", some "CALI",
   some "COMPRAVENTA", some "URBANO"⟩

/-- One property-year key for the activity detector. -/
def regActividad : RegistroAct := ⟨some "M100", some 2020⟩

/-- Three-row batch for the composite-key pass: rows 1 and 3 are the same
injected duplicate, row 2 is distinct. -/
def loteConDuplicado : List RegistroCrudo :=
  [⟨.str "05001", .str "M100", .str "1", .str "125", .str "2020"⟩,
   ⟨.str "05001", .str "M200", .str "2", .str "168", .str "2021"⟩,
   ⟨.str "05001", .str "M100", .str "1", .str "125", .str "2020"⟩]

/-- A feature-engineering row whose frame has every column the encoder
requires except `VALOR`. -/
def filaSinValor : MlRow :=
  ⟨some "T1", none, some (some 2020), none, some (some "URBANO"), none,
   some (some 3), some (some 125), some (some false), some (some false),
   some (some 0), some (some 1), some (some 1), some (some 1), some (some 0)⟩

/-- A feature-engineering row whose frame has exactly the required columns
(`transaction_id`, `VALOR`, the three anomaly flags, `TIENE_VALOR`, the two
counts and `PREDIOS_NUEVOS`) and none of the guarded optional ones. -/
def filaMinima : MlRow :=
  ⟨some "T2", none, none, some (some 80000000), none, none, none, none,
   some (some true), some (some false), some (some 1), some (some 1),
   some (some 2), some (some 1), some (some 0)⟩

/-! ## Claims -/

/-- C1: a market-relevant record (`Dinámica_Inmobiliaria = 1`) whose value
is missing or exactly 0 ends with verdict ERROR and reason
`MERCADO_SIN_VALOR`; a record that is not market-relevant never receives
this reason code, whatever its value. -/
theorem C1_mercado_sin_valor (r : RegistroNorm) :
    (r.dinamica = some 1 → (r.valor = none ∨ r.valor = some 0) →
      (clasificarCalidad r).calidad = "ERROR" ∧
      (clasificarCalidad r).tipoErr = some "MERCADO_SIN_VALOR") ∧
    (r.dinamica ≠ some 1 → (clasificarCalidad r).tipoErr ≠ some "MERCADO_SIN_VALOR") := by
  have hEO : ¬("ERROR" = "OK") := by decide
  constructor
  · rintro hd (hv | hv) <;> norm_num [clasificarCalidad, applyErr, hd, hv, optGtQ, hEO]
  · intro hd
    have hb : (r.dinamica == some 1) = false := beq_eq_false_iff_ne.mpr hd
    simp only [clasificarCalidad, applyErr, hb, Bool.false_and, Bool.and_false,
      Bool.false_eq_true, if_false]
    repeat' split
    all_goals simp_all

/-- C1 witness: the market record with value 0 is classified ERROR with
reason `MERCADO_SIN_VALOR`. -/
theorem C1_witness_mercado_cero :
    (clasificarCalidad regMercadoCero).calidad = "ERROR" ∧
    (clasificarCalidad regMercadoCero).tipoErr = some "MERCADO_SIN_VALOR" :=
  (C1_mercado_sin_valor regMercadoCero).1 rfl (Or.inr rfl)

/-- C2: evaluating the categorical cleaning at a missing cell represented as
a float `NaN`: `astype(str)` renders it `"nan"`, upper-casing gives `"NAN"`,
and the `replace('NONE', np.nan)` step does not touch it — the field ends as
the residual literal string `"NAN"`, not as missing. Sibling modules of the
repository (`src/data/convert_fast.py`, `src/data/etl_pipeline.py`,
`src/data/retry_save.py`) scrub exactly this `'NAN'` artifact, and the
downstream geography rule tests `isna()`, so the missing replacement here is
a slip in the code. -/
theorem C2_nan_residual : limpiarCategorica RawCell.nan = some "NAN" := by decide

/-- C3 counterexample: a record whose filing year is missing — the
year-window rule's mask is `NA`, treated as `False`, so the rule is
silently skipped and the record ends with verdict OK and no reason code,
not the fail-closed ERROR the claim requires. -/
theorem C3_counterexample_anio_faltante :
    regSinAnio.yearRadica = none ∧
    (clasificarCalidad regSinAnio).calidad = "OK" ∧
    (clasificarCalidad regSinAnio).tipoErr = none := by decide

/-- C3 amended: the rules that test their inputs for missingness explicitly
do fail closed — a missing market indicator or a missing geographic field
forces the final verdict to ERROR (and C1 covers the missing-value case for
market records); the year-window rule is the exception refuted above. -/
theorem C3_reglas_explicitas_fail_closed (r : RegistroNorm)
    (h : r.dinamica = none ∨ r.departamento = none ∨ r.municipio = none) :
    (clasificarCalidad r).calidad = "ERROR" := by
  rcases h with h | h | h <;>
  · simp only [clasificarCalidad, applyErr, h, Option.isNone_none, Bool.true_or,
      Bool.or_true, if_true]
    repeat' split
    all_goals simp_all

/-- C3 witness: the record with a missing market indicator lands on ERROR. -/
theorem C3_witness_dinamica_faltante :
    (clasificarCalidad regSinDinamica).calidad = "ERROR" :=
  C3_reglas_explicitas_fail_closed regSinDinamica (Or.inl rfl)

/-- C4: a value above the 10,000,000,000 ceiling forces the final verdict to
ERROR regardless of market-relevance or act type; the later zone-category
warning rule cannot downgrade it. -/
theorem C4_valor_extremo_domina (r : RegistroNorm)
    (h : optGtQ r.valor 10000000000 = true) :
    (clasificarCalidad r).calidad = "ERROR" := by
  simp only [clasificarCalidad, applyErr, h, if_true]
  repeat' split
  all_goals simp_all

/-- C4 witness: a non-market record valued at 20 billion is classified
ERROR. -/
theorem C4_witness_valor_extremo :
    optGtQ regValorExtremo.valor 10000000000 = true ∧
    (clasificarCalidad regValorExtremo).calidad = "ERROR" :=
  ⟨by decide, C4_valor_extremo_domina regValorExtremo (by decide)⟩

/-- C5 counterexample: a market record with an in-range value but a filing
year of 1990 — the verdict is ERROR (`YEAR_INVALIDO`) yet `valor_valido` is
`true`, contradicting the claim that `valor_valido` is false on every
ERROR/WARNING record. -/
theorem C5_counterexample_valor_valido_en_error :
    (clasificarCalidad regErrorAnio).calidad = "ERROR" ∧
    (clasificarCalidad regErrorAnio).valorValido = true := by decide

/-- C5 amended: `valor_valido` is true exactly when the record is
market-relevant and its value lies in [1,000,000, 10,000,000,000]; the
verdict plays no role in the boolean. (The verdict is consulted only by the
ML_TRAINING partition mask, `maskMlTraining`.) -/
theorem C5_valor_valido_sin_verdicto (r : RegistroNorm) :
    (clasificarCalidad r).valorValido = true ↔
      (r.dinamica = some 1 ∧ ∃ v, r.valor = some v ∧ 1000000 ≤ v ∧ v ≤ 10000000000) := by
  simp only [clasificarCalidad]
  cases hv : r.valor with
  | none => simp [optGeQ, optLeQ]
  | some v => simp [optGeQ, optLeQ, and_comm, and_assoc, beq_iff_eq]

/-- C5 witness: a clean market record valued at 5,000,000 has
`valor_valido = true`. -/
theorem C5_witness_valor_valido :
    (clasificarCalidad regMercadoOk).valorValido = true :=
  (C5_valor_valido_sin_verdicto regMercadoOk).mpr
    ⟨rfl, 5000000, rfl, by norm_num, by norm_num⟩

/-- C6 counterexample: in `PropSafeAnomalyDetector.predict` the
isolation-forest scores are NOT inverted. With `decision_function` outputs
`[0, 1]` — record 0 being the more anomalous one (sklearn: lower = more
anomalous) — and degenerate LOF scores `[0, 0]`, the normalized IF component
of record 0 is `0` and of record 1 is `1`, so the ensemble scores are
`[0, 3/5]`: the more anomalous record gets the strictly LOWER score, i.e.
`1.0` means most normal on the IF axis of this path (the normalization also
clips at the 5th/95th percentiles, so it is not pure min-max). -/
theorem C6_counterexample_predict_if_no_invertido :
    normalizeScores [(0:ℚ), 1] = [0, 1] ∧
    predictScores [(0:ℚ), 1] [(0:ℚ), 0] = [0, 3/5] := by
  constructor
  · norm_num [normalizeScores, npPercentile, sortAsc, insertAsc, ratFloor, npClip,
      listMin, listMax]
  · norm_num [predictScores, normalizeScores, npPercentile, sortAsc, insertAsc,
      ratFloor, npClip, listMin, listMax]

/-- C6 amended: the claim holds on the `score_batch` path of
`apply_models.py`: for a batch where each model's raw scores are
non-degenerate, every record's ensemble score is
`0.6 * (1 - minmax(if)) + 0.4 * (1 - minmax(lof))` — each model min-max
normalized independently and inverted, so a record carrying the raw minimum
(most anomalous under sklearn's higher-is-normal convention) has component
`1`. In `PropSafeAnomalyDetector.predict` the IF scores are not inverted
(counterexample above). -/
theorem C6_score_batch_ensamble (ifS lofS : List ℚ) (i : Nat)
    (hi : i < ifS.length) (hl : i < lofS.length)
    (hres : i < (scoreBatch ifS lofS).length)
    (hIf : listMin ifS < listMax ifS) (hLof : listMin lofS < listMax lofS) :
    (scoreBatch ifS lofS)[i] =
      some (6/10 * (1 - (ifS[i] - listMin ifS) / (listMax ifS - listMin ifS)) +
            4/10 * (1 - (lofS[i] - listMin lofS) / (listMax lofS - listMin lofS))) ∧
    (ifS[i] = listMin ifS →
      1 - (ifS[i] - listMin ifS) / (listMax ifS - listMin ifS) = 1) := by
  have hIf0 : listMax ifS - listMin ifS ≠ 0 := sub_ne_zero.mpr (ne_of_gt hIf)
  have hLof0 : listMax lofS - listMin lofS ≠ 0 := sub_ne_zero.mpr (ne_of_gt hLof)
  constructor
  · simp [scoreBatch, invertScores, minmaxNorm, List.getElem_zipWith, List.getElem_map,
      fdivF, fsubF, faddF, fmulF, hIf0, hLof0]
  · intro h
    rw [h]
    simp

/-- C6 witness: on raw scores `if = [0, 2]`, `lof = [0, 1]` the first
record carries both raw minima and its ensemble score is
`0.6 * 1 + 0.4 * 1 = 1`. -/
theorem C6_witness_score_batch :
    (scoreBatch [(0:ℚ), 2] [(0:ℚ), 1])[0]? = some (some 1) := by
  have hres : 0 < (scoreBatch [(0:ℚ), 2] [(0:ℚ), 1]).length := by
    simp [scoreBatch, minmaxNorm, invertScores]
  rw [List.getElem?_eq_getElem hres]
  rw [(C6_score_batch_ensamble [(0:ℚ), 2] [(0:ℚ), 1] 0 (by norm_num) (by norm_num)
    hres (by norm_num [listMin, listMax]) (by norm_num [listMin, listMax])).1]
  norm_num [listMin, listMax]

/-- C7: the claim is right and `score_batch` is wrong — on a batch where a
model assigns one and the same raw score to every record (here a
single-record batch), the min-max denominator `max - min` is zero, the
division is `0/0 = NaN`, and the stored ensemble score is `NaN`, not a real
number in [0, 1]. (`_normalize_scores` in `train_propsafe.py` guards exactly
this case with `np.zeros_like`, showing the intended behavior.) -/
theorem C7_score_batch_nan_degenerado : scoreBatch [(5:ℚ)] [(7:ℚ)] = [none] := by
  norm_num [scoreBatch, minmaxNorm, invertScores, listMin, listMax, fdivF, fsubF,
    faddF, fmulF]

/-- C8: for a record whose property identifier and filing year are present,
`anotaciones_por_anio` is the size of its `(MATRICULA, YEAR_RADICA)` group
in the batch, and the excessive-activity flag is set exactly when that size
exceeds 150. -/
theorem C8_actividad_excesiva_umbral (batch : List RegistroAct) (r : RegistroAct)
    (m : String) (y : Int) (hm : r.matricula = some m) (hy : r.yearRadica = some y) :
    anotacionesPorAnio batch r = conteoAnot batch m y ∧
    (flagActividadExcesiva batch r = true ↔ 150 < conteoAnot batch m y) := by
  simp [anotacionesPorAnio, flagActividadExcesiva, hm, hy]

/-- C8 witness: a property-year group of 151 identical annotations is
flagged, a group of exactly 150 is not, and the attached count is the raw
group size. -/
theorem C8_witness_umbral_150_151 :
    flagActividadExcesiva (List.replicate 151 regActividad) regActividad = true ∧
    flagActividadExcesiva (List.replicate 150 regActividad) regActividad = false ∧
    anotacionesPorAnio (List.replicate 151 regActividad) regActividad = 151 := by
  have h151 := C8_actividad_excesiva_umbral (List.replicate 151 regActividad)
    regActividad "M100" 2020 rfl rfl
  have h150 := C8_actividad_excesiva_umbral (List.replicate 150 regActividad)
    regActividad "M100" 2020 rfl rfl
  have crep : ∀ n : Nat, conteoAnot (List.replicate n regActividad) "M100" 2020 = n := by
    intro n
    induction n with
    | zero => rfl
    | succ k ih =>
        simp only [conteoAnot, List.replicate_succ, List.filter_cons] at ih ⊢
        simp_all [regActividad]
  have c151 := crep 151
  have c150 := crep 150
  refine ⟨h151.2.mpr (by rw [c151]; norm_num), ?_, by rw [h151.1, c151]⟩
  cases hf : flagActividadExcesiva (List.replicate 150 regActividad) regActividad
  · rfl
  · exact absurd (h150.2.mp hf) (by rw [c150]; norm_num)

/-- C9 counterexample: on the three-row batch with one injected duplicate
row, the only statistic `crear_composite_key` surfaces is the number of
distinct keys — it reports 2, not the one duplicate-key report the claim
requires (the duplicate count is merely derivable as `3 - 2`); the keyed
output still carries all 3 records. -/
theorem C9_counterexample_reporte_duplicado :
    (crearCompositeKey loteConDuplicado).2 = 2 ∧
    (crearCompositeKey loteConDuplicado).2 ≠ 1 ∧
    (crearCompositeKey loteConDuplicado).1.length = 3 := by decide

/-- C9 amended: `crear_composite_key` never drops or deduplicates a record —
the keyed output is exactly the input batch in order — and the reported
distinct-key count equals the batch size precisely when the composite keys
are duplicate-free, so duplicates are surfaced only as the deficit between
batch size and the reported count. -/
theorem C9_llaves_sin_descartes (batch : List RegistroCrudo) :
    (crearCompositeKey batch).1.map Prod.fst = batch ∧
    (crearCompositeKey batch).2 ≤ batch.length ∧
    ((crearCompositeKey batch).2 = batch.length ↔ (batch.map transactionId).Nodup) := by
  have hfst : (Prod.fst ∘ fun r : RegistroCrudo => (r, transactionId r)) = id := rfl
  have hsnd : (Prod.snd ∘ fun r : RegistroCrudo => (r, transactionId r)) = transactionId := rfl
  refine ⟨?_, ?_, ?_⟩
  · simp [crearCompositeKey, List.map_map, hfst]
  · simpa [crearCompositeKey, List.map_map, hsnd] using
      (List.dedup_sublist (batch.map transactionId)).length_le
  · constructor
    · intro h
      have hlen : (batch.map transactionId).dedup.length = (batch.map transactionId).length := by
        simpa [crearCompositeKey, List.map_map, hsnd] using h
      exact List.dedup_eq_self.mp ((List.dedup_sublist _).eq_of_length hlen)
    · intro h
      have hd := List.dedup_eq_self.mpr h
      simp [crearCompositeKey, List.map_map, hsnd, hd]

/-- C10 counterexample: a batch whose schema lacks the monetary-value column
`VALOR` (but has every other column the encoder touches) does not get a
zero-defaulted feature row — `create_features` raises `KeyError` on the
unguarded `df['VALOR']` access, before any numeric feature is produced. -/
theorem C10_counterexample_valor_ausente :
    createFeatures (fun q => q) filaSinValor = Except.error "KeyError: VALOR" := rfl

/-- C10 amended: `create_features` returns a feature row without raising for
every record whose frame contains the required columns — `transaction_id`,
`VALOR`, the three anomaly-flag columns, `TIENE_VALOR`, `COUNT_A`,
`COUNT_DE`, `PREDIOS_NUEVOS` — whatever the cell values; only the explicitly
guarded columns (date/year, zone, ruralidad, act-type code, annotation
count) may be absent from the schema. -/
theorem C10_columnas_requeridas (f : ℚ → ℚ) (r : MlRow)
    (h1 : r.transactionId.isSome) (h2 : r.valor.isSome)
    (h3 : r.flagActividadExcesiva.isSome) (h4 : r.flagGeoDiscrepancia.isSome)
    (h5 : r.totalFlagsAnomalia.isSome) (h6 : r.tieneValor.isSome)
    (h7 : r.countA.isSome) (h8 : r.countDe.isSome) (h9 : r.prediosNuevos.isSome) :
    ∃ out, createFeatures f r = Except.ok out := by
  obtain ⟨t, ht⟩ := Option.isSome_iff_exists.mp h1
  obtain ⟨v, hv⟩ := Option.isSome_iff_exists.mp h2
  obtain ⟨a, ha⟩ := Option.isSome_iff_exists.mp h3
  obtain ⟨b, hb⟩ := Option.isSome_iff_exists.mp h4
  obtain ⟨c, hc⟩ := Option.isSome_iff_exists.mp h5
  obtain ⟨d, hd⟩ := Option.isSome_iff_exists.mp h6
  obtain ⟨e, he⟩ := Option.isSome_iff_exists.mp h7
  obtain ⟨g, hg⟩ := Option.isSome_iff_exists.mp h8
  obtain ⟨p, hp⟩ := Option.isSome_iff_exists.mp h9
  exact ⟨_, by rw [createFeatures, ht, hv, ha, hb, hc, hd, he, hg, hp]⟩

/-- C10 witness: a row with exactly the required columns — all guarded
optional columns absent — is encoded without error. -/
theorem C10_witness_fila_minima :
    filaMinima.valor.isSome = true ∧
    ∃ out, createFeatures (fun q => q) filaMinima = Except.ok out :=
  ⟨rfl, C10_columnas_requeridas (fun q => q) filaMinima rfl rfl rfl rfl rfl rfl rfl rfl rfl⟩

end PropSafe
